import Mathlib

/-
Shallow embedding of the libminc volume_io streaming decoders:
  src/volume_io/Volumes/input_free.c  (free-format ASCII-header volumes)
  src/volume_io/Volumes/input_mgh.c   (MGH/MGZ fixed-binary volumes)

Machine reals (C `Real` = double, C `float`) are modelled as ℚ; C `int`
values as ℤ.  A floating-point division whose divisor is exactly zero
(IEEE NaN/Inf, and undefined behaviour at the subsequent int cast) is
modelled as `none` of an `Option` result.  Uninitialized C stack arrays
are modelled by passing their initial contents explicitly.
-/

namespace Minc

/-- VIO_Status: the C code only distinguishes OK from ERROR here. -/
inductive Status where
  | OK
  | ERROR
deriving DecidableEq

/-- Canonical spatial axes X, Y, Z. -/
inductive SpatialAxis where
  | X
  | Y
  | Z
deriving DecidableEq

/-- The two sample types of the free format (input_free.c lines 81-89). -/
inductive FileDataType where
  | unsignedByte
  | unsignedShort
deriving DecidableEq

/- ------------------------------------------------------------------ -/
/- Quantization pipeline (input_free.c 474-544, input_mgh.c 648-714)  -/
/- ------------------------------------------------------------------ -/

/-- Division as the C code performs it on doubles.  A zero divisor is an
IEEE division by zero (NaN for 0/0, ±Inf otherwise), never a rational
number; it is represented by `none`. -/
def c_div (a b : ℚ) : Option ℚ :=
  if b = 0 then none else some (a / b)

/-- The C cast `(int)(double)`: truncation toward zero. -/
def c_trunc (q : ℚ) : ℤ :=
  if q < 0 then ⌈q⌉ else ⌊q⌋

/-- value_scale as computed by both drivers (input_free.c 480-482,
input_mgh.c 650-653): (max - min) / (NUM_BYTE_VALUES - 1), with
NUM_BYTE_VALUES = 256. -/
def value_scale_of_range (mn mx : ℚ) : ℚ :=
  (mx - mn) / 255

/-- Per-sample quantization of the free-format UNSIGNED_BYTE source branch
(input_free.c 500-510): value = (int)((v - translation) / scale), then
clamped to [0, 255]. -/
def free_format_quantize_byte (v t s : ℚ) : Option ℤ :=
  (c_div (v - t) s).map (fun q =>
    let z := c_trunc q
    if z < 0 then 0 else if z > 255 then 255 else z)

/-- Per-sample quantization of the free-format UNSIGNED_SHORT source branch
(input_free.c 529-534): value = (int)((v - translation) / scale); note
there is no clamping in this branch. -/
def free_format_quantize_short (v t s : ℚ) : Option ℤ :=
  (c_div (v - t) s).map c_trunc

/-- Per-sample scaling of the MGH driver (input_mgh.c 699): the real value
(v - value_translation) / value_scale is stored, with no rounding and no
clamping in the driver itself. -/
def mgh_quantize (v t s : ℚ) : Option ℚ :=
  c_div (v - t) s

/-- Modelled from the spec (§4.4): during real decode each raw sample v maps
to round((v − translation) / scale), clamped to the destination's (byte)
representable range [0, 255].  Division by a zero scale does not occur per
the spec, so plain rational division is used. -/
def spec_quantize (v t s : ℚ) : ℤ :=
  let q := round ((v - t) / s)
  if q < 0 then 0 else if q > 255 then 255 else q

/- ------------------------------------------------------------------ -/
/- Free-format pre-pass (input_free.c 277-316)                        -/
/- ------------------------------------------------------------------ -/

/-- The two slice buffers of volume_input_struct.  Only one of them is
allocated by initialize_free_format_input (lines 261-275); contents are
modelled as total functions from buffer index to sample value, with the
initial (unwritten) contents supplied explicitly. -/
structure SliceBuffers where
  byteBuf : ℕ → ℤ
  shortBuf : ℕ → ℤ

/-- The buffer-filling effect of input_slice (input_free.c 404-426): the
slice's file samples are read into byte_slice_buffer for UNSIGNED_BYTE
files and into short_slice_buffer for UNSIGNED_SHORT files. -/
def input_slice_fill (ft : FileDataType) (fileSlice : ℕ → ℤ) (b : SliceBuffers) :
    SliceBuffers :=
  match ft with
  | FileDataType.unsignedByte => { b with byteBuf := fileSlice }
  | FileDataType.unsignedShort => { b with shortBuf := fileSlice }

/-- The values examined by the pre-pass loop of initialize_free_format_input
(lines 297-310): for each slice it calls input_slice and then reads
`short_slice_buffer[i]` for every i — the short buffer is read regardless
of file_data_type. -/
def prepass_scanned_values (ft : FileDataType) (nPerSlice : ℕ) :
    List (ℕ → ℤ) → SliceBuffers → List ℤ
  | [], _ => []
  | s :: rest, b =>
    let b1 := input_slice_fill ft s b
    ((List.range nPerSlice).map fun i => b1.shortBuf i) ++
      prepass_scanned_values ft nPerSlice rest b1

/-- The min/max fold of the pre-pass (input_free.c 292-308): min_value and
max_value start at 0 and the first sample (slice == 0 && i == 0) overwrites
both, so for a nonempty list this is the exact minimum and maximum. -/
def min_max_fold : List ℤ → ℤ × ℤ
  | [] => (0, 0)
  | v :: rest =>
    rest.foldl
      (fun mm x => (if x < mm.1 then x else mm.1, if x > mm.2 then x else mm.2))
      (v, v)

/-- The voxel range committed by the free-format quantization pre-pass
(set_volume_voxel_range at input_free.c line 312). -/
def free_format_prepass_range (ft : FileDataType) (nPerSlice : ℕ)
    (fileSlices : List (ℕ → ℤ)) (b : SliceBuffers) : ℤ × ℤ :=
  min_max_fold (prepass_scanned_values ft nPerSlice fileSlices b)

/- ------------------------------------------------------------------ -/
/- Free-format slice reading (input_free.c 378-439)                   -/
/- ------------------------------------------------------------------ -/

/-- slice_index and the slice count sizes_in_file[0]. -/
structure SliceCursor where
  slice_index : ℕ
  n_slices : ℕ
deriving DecidableEq

/-- input_slice (input_free.c 378-439).  `openOk i` tells whether opening
(and seeking) the i-th slice file succeeds in one-file-per-slice mode;
`readOk i` tells whether the binary read of slice i succeeds.  Note the
`++volume_input->slice_index` at line 433 executes on the error paths as
well, as it is outside every `if (status == OK)` guard. -/
def input_slice (one_file_per_slice : Bool) (openOk readOk : ℕ → Bool)
    (s : SliceCursor) : Status × SliceCursor :=
  if s.slice_index < s.n_slices then
    let openSt := if one_file_per_slice then openOk s.slice_index else true
    let st :=
      if openSt then
        (if readOk s.slice_index then Status.OK else Status.ERROR)
      else Status.ERROR
    (st, ⟨s.slice_index + 1, s.n_slices⟩)
  else
    (Status.ERROR, s)

/-- The cursor and status after k successive input_slice calls
(call number k is `run_input_slices ... k` for k ≥ 1). -/
def run_input_slices (openOk readOk : ℕ → Bool) (s : SliceCursor) :
    ℕ → Status × SliceCursor
  | 0 => (Status.OK, s)
  | k + 1 => input_slice true openOk readOk (run_input_slices openOk readOk s k).2

/- ------------------------------------------------------------------ -/
/- Incremental load drivers (input_free.c 452-590, input_mgh.c 612-743)-/
/- ------------------------------------------------------------------ -/

/-- slice_index after k calls of input_more_free_format_file on a session
with n slices: each call with slice_index < n runs input_slice, which
always increments slice_index (even when its internal status is ERROR);
calls after exhaustion leave it unchanged. -/
def free_driver_cursor (n : ℕ) : ℕ → ℕ
  | 0 => 0
  | k + 1 =>
    let c := free_driver_cursor n k
    if c < n then c + 1 else c

/-- slice_index after k calls of input_more_mgh_format_file: input_next_slice
(input_mgh.c 104-133) increments slice_index only when the znzread of the
slice succeeds (`readOk k` for the k-th call). -/
def mgh_driver_cursor (n : ℕ) (readOk : ℕ → Bool) : ℕ → ℕ
  | 0 => 0
  | k + 1 =>
    let c := mgh_driver_cursor n readOk k
    if c < n ∧ readOk k then c + 1 else c

/-- fraction_done reported by the free driver after k calls (input_free.c
552-553): slice_index / sizes[axis_index_from_file[0]], the denominator
being sizes_in_file[0] = n. -/
def free_fraction_done (n k : ℕ) : ℚ :=
  (free_driver_cursor n k : ℚ) / (n : ℚ)

/-- fraction_done reported by the MGH driver after k calls (input_mgh.c
720): slice_index / sizes_in_file[2]. -/
def mgh_fraction_done (n : ℕ) (readOk : ℕ → Bool) (k : ℕ) : ℚ :=
  (mgh_driver_cursor n readOk k : ℚ) / (n : ℚ)

/-- more_to_do returned by the free driver after k calls (input_free.c
555-560): FALSE exactly when slice_index equals the slice count. -/
def free_has_more (n k : ℕ) : Bool :=
  !(free_driver_cursor n k == n)

/-- Return value of the MGH driver after k calls (input_mgh.c 725-742):
FALSE exactly when slice_index equals sizes_in_file[2]. -/
def mgh_has_more (n : ℕ) (readOk : ℕ → Bool) (k : ℕ) : Bool :=
  !(mgh_driver_cursor n readOk k == n)

/- ------------------------------------------------------------------ -/
/- Free-format header / axis handling (input_free.c 29-332)           -/
/- ------------------------------------------------------------------ -/

/-- The fields of the external volume descriptor that
initialize_free_format_input reads or writes. -/
structure VolumeGeom where
  spatialAxes : Fin 3 → ℤ
  directionCosines : Fin 3 → Fin 3 → ℚ
  separations : Fin 3 → ℚ
  translation : Fin 3 → ℚ
  sizes : Fin 3 → ℤ

/-- The parsed free-format header: bytes per voxel, the three world
translations, and one (count, signed separation, axis letter) triple per
file axis (input_free.c 60-162). -/
structure FreeHeader where
  n_bytes_per_voxel : ℤ
  trans : Fin 3 → ℚ
  sizes_in_file : Fin 3 → ℤ
  file_separations : Fin 3 → ℚ
  axis_letters : Fin 3 → Char

/-- Lines 108-117: spatial_axes are reset to 0,1,2 only when one of them is
negative. -/
def fix_spatial_axes (sa : Fin 3 → ℤ) : Fin 3 → ℤ :=
  if sa 0 < 0 ∨ sa 1 < 0 ∨ sa 2 < 0 then fun c => (c.val : ℤ) else sa

/-- Lines 164-171: runs for c = 0,1,2 unconditionally, setting
spatial_axes[c] = c and direction_cosines[c] to the c-th identity basis
vector. -/
def force_identity_axes (v : VolumeGeom) : VolumeGeom :=
  { v with
    spatialAxes := fun c => (c.val : ℤ),
    directionCosines := fun c k => if k = c then 1 else 0 }

/-- The axis-letter switch of lines 135-153: x/X, y/Y, z/Z select
spatial_axes[X], [Y], [Z] respectively; any other character is invalid. -/
def free_letter_index (sa : Fin 3 → ℤ) (ch : Char) : Option ℤ :=
  if ch = 'x' ∨ ch = 'X' then some (sa 0)
  else if ch = 'y' ∨ ch = 'Y' then some (sa 1)
  else if ch = 'z' ∨ ch = 'Z' then some (sa 2)
  else none

/-- axis_index_from_file for the three file axes, none when any letter is
invalid (the loop of lines 119-162 with reads succeeding). -/
def free_axis_indices (sa : Fin 3 → ℤ) (letters : Fin 3 → Char) :
    Option (Fin 3 → ℤ) :=
  match free_letter_index sa (letters 0), free_letter_index sa (letters 1),
      free_letter_index sa (letters 2) with
  | some a, some b, some c => some ![a, b, c]
  | _, _, _ => none

/-- The three local arrays of initialize_free_format_input that the
recording loop (lines 230-251) writes: sizes, volume_separations and trans.
They are C stack arrays indexed by int; sizes and volume_separations are
declared without an initializer, so their pre-loop contents are arbitrary. -/
structure RecordedGeom where
  sizesArr : ℤ → ℤ
  sepsArr : ℤ → ℚ
  transArr : ℤ → ℚ

/-- One iteration of the recording loop (input_free.c 232-244): writes
sizes[axis_index_from_file[axis]] and
volume_separations[axis_index_from_file[axis]], then tests
volume_separations[axis] — the entry at the *loop index*, which for a
non-identity permutation may not have been written yet — and, when it is
negative, adds -volume_separations[axis] * (sizes[axis] - 1) to
trans[axis]. -/
def record_axis_step (axisIndexFromFile : Fin 3 → ℤ) (sizesInFile : Fin 3 → ℤ)
    (fileSeps : Fin 3 → ℚ) (st : RecordedGeom) (axis : Fin 3) : RecordedGeom :=
  let sizesArr := Function.update st.sizesArr (axisIndexFromFile axis) (sizesInFile axis)
  let sepsArr := Function.update st.sepsArr (axisIndexFromFile axis) (fileSeps axis)
  let transArr :=
    if sepsArr (axis.val : ℤ) < 0 then
      Function.update st.transArr (axis.val : ℤ)
        (st.transArr (axis.val : ℤ) +
          (- sepsArr (axis.val : ℤ)) * ((sizesArr (axis.val : ℤ) - 1 : ℤ) : ℚ))
    else st.transArr
  { sizesArr := sizesArr, sepsArr := sepsArr, transArr := transArr }

/-- The recording loop for axis = 0, 1, 2 (input_free.c 230-251). -/
def record_geometry (axisIndexFromFile : Fin 3 → ℤ) (sizesInFile : Fin 3 → ℤ)
    (fileSeps : Fin 3 → ℚ) (g : RecordedGeom) : RecordedGeom :=
  record_axis_step axisIndexFromFile sizesInFile fileSeps
    (record_axis_step axisIndexFromFile sizesInFile fileSeps
      (record_axis_step axisIndexFromFile sizesInFile fileSeps g 0) 1) 2

/-- Result of initialize_free_format_input: the status, the mutated volume
descriptor, and axis_index_from_file. -/
structure FreeInitResult where
  status : Status
  volume : VolumeGeom
  axis_index_from_file : Fin 3 → ℤ

/-- initialize_free_format_input (input_free.c 29-332), header parsing and
geometry recording (file I/O abstracted to the already-parsed header;
the pre-pass is modelled separately by free_format_prepass_range).
`sizesGarbage`/`sepsGarbage` are the initial contents of the uninitialized
stack arrays sizes and volume_separations. -/
def initialize_free_format_input (hdr : FreeHeader) (vol : VolumeGeom)
    (sizesGarbage : ℤ → ℤ) (sepsGarbage : ℤ → ℚ) : FreeInitResult :=
  let st0 :=
    if hdr.n_bytes_per_voxel = 1 ∨ hdr.n_bytes_per_voxel = 2 then Status.OK
    else Status.ERROR
  let sa := fix_spatial_axes vol.spatialAxes
  let vol1 := force_identity_axes { vol with spatialAxes := sa }
  match (if st0 = Status.OK then free_axis_indices sa hdr.axis_letters else none) with
  | none =>
    { status := Status.ERROR, volume := vol1, axis_index_from_file := fun _ => 0 }
  | some a =>
    if a 0 = a 1 ∨ a 0 = a 2 ∨ a 1 = a 2 then
      { status := Status.ERROR, volume := vol1, axis_index_from_file := a }
    else
      let transInit : ℤ → ℚ := fun i =>
        if i = 0 then hdr.trans 0 else if i = 1 then hdr.trans 1
        else if i = 2 then hdr.trans 2 else 0
      let g := record_geometry a hdr.sizes_in_file hdr.file_separations
        ⟨sizesGarbage, sepsGarbage, transInit⟩
      { status := Status.OK,
        volume :=
          { vol1 with
            separations := fun c => g.sepsArr (c.val : ℤ),
            translation := fun c => g.transArr (c.val : ℤ),
            sizes := fun c => g.sizesArr (c.val : ℤ) },
        axis_index_from_file := a }

/- ------------------------------------------------------------------ -/
/- MGH header / axis handling (input_mgh.c 399-598)                   -/
/- ------------------------------------------------------------------ -/

/-- The supported VIO types of the MGH reader (input_mgh.c 437-463). -/
inductive MghVioType where
  | unsignedByte
  | signedShort
  | signedInt
  | floatType
deriving DecidableEq

/-- The MGH fixed-binary header after byte-order correction
(struct mgh_header, input_mgh.c 56-64); dircos row j holds the three RAS
components of file axis j (row 3 is c_ras). -/
structure MghHeader where
  version : ℤ
  sizes : Fin 4 → ℤ
  mgh_type : ℤ
  dof : ℤ
  goodRASflag : ℤ
  spacing : Fin 3 → ℚ
  dircos : Fin 4 → Fin 3 → ℚ

/-- The MGH type-code translation (input_mgh.c 437-463): 0 → unsigned byte,
1 → signed int, 3 → float, 4 → signed short; everything else fatal. -/
def mgh_type_to_vio (t : ℤ) : Option MghVioType :=
  if t = 0 then some MghVioType.unsignedByte
  else if t = 1 then some MghVioType.signedInt
  else if t = 3 then some MghVioType.floatType
  else if t = 4 then some MghVioType.signedShort
  else none

/-- Dominant-axis inference for one file axis (input_mgh.c 507-523):
spatial_axis starts at VIO_X; it becomes Y when |d 1| strictly exceeds both
others, then Z when |d 2| strictly exceeds both others. -/
def mgh_dominant_axis (d : Fin 3 → ℚ) : SpatialAxis :=
  let cx := |d 0|
  let cy := |d 1|
  let cz := |d 2|
  let a0 := SpatialAxis.X
  let a1 := if cy > cx ∧ cy > cz then SpatialAxis.Y else a0
  let a2 := if cz > cx ∧ cz > cy then SpatialAxis.Z else a1
  a2

/-- Modelled from the spec (C6): the canonical axis whose component has the
largest absolute magnitude, ties broken by the priority order X, then Y,
then Z.  Arguments are the three magnitudes. -/
def spec_dominant_axis (cx cy cz : ℚ) : SpatialAxis :=
  if cx ≥ cy ∧ cx ≥ cz then SpatialAxis.X
  else if cy ≥ cz then SpatialAxis.Y
  else SpatialAxis.Z

/-- axis_index_from_file of the MGH reader (loop at input_mgh.c 507-523). -/
def mgh_axis_assignment (hdr : MghHeader) : Fin 3 → SpatialAxis :=
  fun axis => mgh_dominant_axis (fun j => hdr.dircos axis.castSucc j)

/-- The session state produced by initialize_mgh_format_input that the
claims refer to. -/
structure MghSession where
  file_data_type : MghVioType
  sizes_in_file : Fin 4 → ℤ
  axis_index_from_file : Fin 3 → SpatialAxis

/-- initialize_mgh_format_input (input_mgh.c 399-598), restricted to the
header checks and the axis assignment: the version must be 1
(mgh_header_from_file, line 289), the type code must be supported (lines
437-463), and the axis assignment loop runs with no duplicate-role check
of any kind. -/
def initialize_mgh_format_input (hdr : MghHeader) : Option MghSession :=
  if hdr.version = 1 then
    match mgh_type_to_vio hdr.mgh_type with
    | none => none
    | some t =>
      some { file_data_type := t, sizes_in_file := hdr.sizes,
             axis_index_from_file := mgh_axis_assignment hdr }
  else none

/-- An MGH header whose first two file axes both have their dominant
direction-cosine component on X. -/
def mgh_dup_header : MghHeader :=
  { version := 1, sizes := ![4, 4, 4, 1], mgh_type := 0, dof := 0,
    goodRASflag := 1, spacing := ![1, 1, 1],
    dircos := ![![1, 0, 0], ![1, 0, 0], ![0, 0, 1], ![0, 0, 0]] }

/-- A free-format header whose axis letters are x, x, z. -/
def free_dup_header : FreeHeader :=
  { n_bytes_per_voxel := 1, trans := ![0, 0, 0], sizes_in_file := ![2, 2, 2],
    file_separations := ![1, 1, 1], axis_letters := !['x', 'x', 'z'] }

/-- A volume descriptor in its default state (spatial axes 0, 1, 2). -/
def default_volume : VolumeGeom :=
  { spatialAxes := ![0, 1, 2], directionCosines := fun _ _ => 0,
    separations := fun _ => 1, translation := fun _ => 0, sizes := ![0, 0, 0] }

/- ------------------------------------------------------------------ -/
/- Session teardown (input_free.c 344-365, input_mgh.c 600-610)       -/
/- ------------------------------------------------------------------ -/

/-- The heap/file resources owned by a free-format session. -/
structure FreeResources where
  bufferAllocated : Bool
  filenamesAllocated : Bool
  volumeFileOpen : Bool
  one_file_per_slice : Bool
deriving DecidableEq

/-- The heap/file resources owned by an MGH session. -/
structure MghResources where
  bufferAllocated : Bool
  fileOpen : Bool
deriving DecidableEq

/-- C FREE: releasing an allocated block succeeds and leaves it released;
releasing an already-released block is a double free (undefined), `none`. -/
def c_free (allocated : Bool) : Option Bool :=
  if allocated then some false else none

/-- close_file / znzclose on a handle: closing an open handle succeeds;
closing an already-closed handle is undefined, `none`. -/
def c_close (isOpen : Bool) : Option Bool :=
  if isOpen then some false else none

/-- delete_free_format_input (input_free.c 344-365): frees the slice buffer
unconditionally, then either frees the slice-filename tables
(one-file-per-slice mode) or closes the volume file. -/
def delete_free_format_input (r : FreeResources) : Option FreeResources :=
  match c_free r.bufferAllocated with
  | none => none
  | some b =>
    if r.one_file_per_slice then
      match c_free r.filenamesAllocated with
      | none => none
      | some f => some { r with bufferAllocated := b, filenamesAllocated := f }
    else
      match c_close r.volumeFileOpen with
      | none => none
      | some v => some { r with bufferAllocated := b, volumeFileOpen := v }

/-- delete_mgh_format_input (input_mgh.c 600-610): FREE the slice buffer,
then znzclose the volume file, unconditionally. -/
def delete_mgh_format_input (r : MghResources) : Option MghResources :=
  match c_free r.bufferAllocated, c_close r.fileOpen with
  | some b, some f => some ⟨b, f⟩
  | _, _ => none

/- ================================================================== -/
/- Theorems                                                           -/
/- ================================================================== -/

/-- Claim C1: the free-format quantization pre-pass is supposed to commit
exactly the min and max of all file samples for every supported sample
type.  For UNSIGNED_BYTE files it does not: input_slice fills
byte_slice_buffer, but the scan loop (input_free.c 303) reads
short_slice_buffer.  Here a one-slice (2-voxel) byte file whose samples
are both 5 commits (0, 0) — the untouched short-buffer contents — while
the same samples in an UNSIGNED_SHORT file yield the correct (5, 5). -/
theorem C1_free_prepass_wrong_buffer :
    free_format_prepass_range FileDataType.unsignedByte 2 [fun _ => 5]
      ⟨fun _ => 0, fun _ => 0⟩ = (0, 0) ∧
    free_format_prepass_range FileDataType.unsignedShort 2 [fun _ => 5]
      ⟨fun _ => 0, fun _ => 0⟩ = (5, 5) ∧
    min_max_fold [5, 5] = (5, 5) := by
  decide

/-- Claim C2, counterexample: the MGH parser assigns the same canonical
axis (X) to file axes 0 and 1 of mgh_dup_header, and
initialize_mgh_format_input nevertheless succeeds — there is no
duplicate-role check in input_mgh.c. -/
theorem C2_counterexample :
    (initialize_mgh_format_input mgh_dup_header).isSome = true ∧
    mgh_axis_assignment mgh_dup_header 0 = SpatialAxis.X ∧
    mgh_axis_assignment mgh_dup_header 1 = SpatialAxis.X := by
  decide

/-- Claim C3: with a constant-valued source (every sample 5) and
quantization active, the pre-pass commits the range (5, 5), so
value_translation = 5 and value_scale = 0; every per-sample computation in
both drivers then divides by the zero scale (IEEE 0/0, modelled as none)
instead of resolving to 0. -/
theorem C3_division_by_zero :
    value_scale_of_range 5 5 = 0 ∧
    free_format_quantize_byte 5 5 (value_scale_of_range 5 5) = none ∧
    free_format_quantize_short 5 5 (value_scale_of_range 5 5) = none ∧
    mgh_quantize 5 5 (value_scale_of_range 5 5) = none := by
  refine ⟨?_, ?_, ?_, ?_⟩ <;>
    norm_num [value_scale_of_range, free_format_quantize_byte,
      free_format_quantize_short, mgh_quantize, c_div]

/-- Claim C4, counterexample: with the pre-pass range (0, 2550) the scale
is 10; for the raw sample 17 the spec mandates round(1.7) = 2, but the
free-format short branch computes the C int cast (int)1.7 = 1. -/
theorem C4_counterexample :
    value_scale_of_range 0 2550 = 10 ∧
    free_format_quantize_short 17 0 10 = some 1 ∧
    spec_quantize 17 0 10 = 2 ∧
    ¬ free_format_quantize_short 17 0 10 = some (spec_quantize 17 0 10) := by
  have h1 : value_scale_of_range 0 2550 = 10 := by
    norm_num [value_scale_of_range]
  have h2 : free_format_quantize_short 17 0 10 = some 1 := by
    have : ⌊(17 : ℚ) / 10⌋ = 1 := by norm_num
    norm_num [free_format_quantize_short, c_div, c_trunc, this]
  have h3 : spec_quantize 17 0 10 = 2 := by
    have : round ((17 : ℚ) / 10) = 2 := by
      rw [round_eq]; norm_num
    norm_num [spec_quantize, this]
  refine ⟨h1, h2, h3, ?_⟩
  rw [h2, h3]
  decide

/-- Claim C5, counterexample: per-slice-file mode, 5 slices, slice file 2
missing (openOk fails only at 2).  Calls 1 and 2 succeed, call 3 returns
ERROR — but slice_index after the failing call is 3, not the 2 completed
slices the claim requires, because the ++slice_index of input_slice
(input_free.c 433) runs on the error path too. -/
theorem C5_counterexample :
    (run_input_slices (fun i => !(i == 2)) (fun _ => true) ⟨0, 5⟩ 1).1 = Status.OK ∧
    (run_input_slices (fun i => !(i == 2)) (fun _ => true) ⟨0, 5⟩ 2).1 = Status.OK ∧
    (run_input_slices (fun i => !(i == 2)) (fun _ => true) ⟨0, 5⟩ 3).1 = Status.ERROR ∧
    (run_input_slices (fun i => !(i == 2)) (fun _ => true) ⟨0, 5⟩ 3).2.slice_index = 3 ∧
    ¬ (run_input_slices (fun i => !(i == 2)) (fun _ => true) ⟨0, 5⟩ 3).2.slice_index = 2 := by
  decide

/-- Claim C6, counterexample: for the direction-cosine row (0, 1, 1) the Y
and Z magnitudes tie and exceed X; the claimed priority order X, Y, Z
breaks the Y-Z tie in favour of Y, but the code assigns X — the axis with
the strictly smallest magnitude — because neither strict comparison
fires. -/
theorem C6_counterexample :
    mgh_dominant_axis ![0, 1, 1] = SpatialAxis.X ∧
    spec_dominant_axis 0 1 1 = SpatialAxis.Y ∧
    SpatialAxis.X ≠ SpatialAxis.Y := by
  decide

/-- Claim C8: the flip test of the recording loop (input_free.c 239-243)
indexes the partially-filled local arrays by the loop variable.  With axis
letters y, x, z (axis_index_from_file = 1, 0, 2), canonical-X spacing -2
and canonical-X size 5, and the uninitialized locals containing zero, no
offset at all is added to the X translation (it stays 10 in both the
negative- and the positive-spacing run), while the claim requires the
negative run to be offset by |−2| × (5−1) = 8.  With the identity letter
order x, y, z the same data does produce the required offset 10 + 8. -/
theorem C8_flip_uninitialized_eval :
    (record_geometry ![1, 0, 2] ![4, 5, 6] ![1, -2, 1]
      ⟨fun _ => 0, fun _ => 0, fun _ => 10⟩).transArr 0 = 10 ∧
    (record_geometry ![1, 0, 2] ![4, 5, 6] ![1, 2, 1]
      ⟨fun _ => 0, fun _ => 0, fun _ => 10⟩).transArr 0 = 10 ∧
    (record_geometry ![0, 1, 2] ![5, 4, 6] ![-2, 1, 1]
      ⟨fun _ => 0, fun _ => 0, fun _ => 10⟩).transArr 0 = 10 + 2 * (5 - 1) := by
  refine ⟨?_, ?_, ?_⟩ <;>
    norm_num [record_geometry, record_axis_step, Function.update,
      Matrix.cons_val_zero, Matrix.cons_val_one, Matrix.head_cons,
      Matrix.cons_val_two, Matrix.tail_cons]

/-- Claim C9, counterexample: a first close of a live session succeeds, but
a second close of the already-closed session is a double free (none), not
an idempotent no-op, in both format variants. -/
theorem C9_counterexample :
    (delete_free_format_input ⟨true, false, true, false⟩).isSome = true ∧
    (delete_free_format_input ⟨true, false, true, false⟩).bind
      delete_free_format_input = none ∧
    (delete_mgh_format_input ⟨true, true⟩).isSome = true ∧
    (delete_mgh_format_input ⟨true, true⟩).bind delete_mgh_format_input = none := by
  decide

/-- Claim C10: after every free-format open — whatever the header's axis
letters, whatever spatial-axis mapping or direction cosines the volume
held before, and whatever the uninitialized locals contain — the volume's
spatial-axis mapping is the identity (X→0, Y→1, Z→2) and each
direction-cosine row is the corresponding identity basis vector, because
the loop at input_free.c 164-171 runs unconditionally and nothing later
touches these fields. -/
theorem C10_axes_forced_identity (hdr : FreeHeader) (vol : VolumeGeom)
    (g1 : ℤ → ℤ) (g2 : ℤ → ℚ) :
    (initialize_free_format_input hdr vol g1 g2).volume.spatialAxes =
      (fun c : Fin 3 => (c.val : ℤ)) ∧
    (initialize_free_format_input hdr vol g1 g2).volume.directionCosines =
      (fun c k : Fin 3 => if k = c then 1 else 0) := by
  unfold initialize_free_format_input
  refine ⟨?_, ?_⟩ <;>
  · dsimp only
    repeat' split
    all_goals rfl

/-- Claim C5 (amended): in per-slice-file mode, decoding slices 0 and 1
succeeds and the attempt on the missing slice 2 fails with an I/O error,
but the failing call still advances the cursor: whenever
slice_index < n_slices, input_slice increments slice_index by exactly one
regardless of success, and returns OK exactly when both the open and the
read of the current slice file succeed.  After the failing third call of
the 5-slice scenario the cursor is therefore 3, not 2. -/
theorem C5_cursor_advances_on_failure (openOk readOk : ℕ → Bool)
    (s : SliceCursor) (h : s.slice_index < s.n_slices) :
    (input_slice true openOk readOk s).2.slice_index = s.slice_index + 1 ∧
    ((input_slice true openOk readOk s).1 = Status.OK ↔
      openOk s.slice_index = true ∧ readOk s.slice_index = true) := by
  cases hx : openOk s.slice_index <;> cases hy : readOk s.slice_index <;>
    simp [input_slice, h, hx, hy]

/-- Witness for C5_cursor_advances_on_failure at the scenario's failing
call: cursor 2 of 5, slice file 2 missing. -/
theorem C5_cursor_advances_witness :
    (input_slice true (fun i => !(i == 2)) (fun _ => true) ⟨2, 5⟩).2.slice_index = 2 + 1 ∧
    ((input_slice true (fun i => !(i == 2)) (fun _ => true) ⟨2, 5⟩).1 = Status.OK ↔
      (!(2 == 2) : Bool) = true ∧ (true : Bool) = true) :=
  C5_cursor_advances_on_failure (fun i => !(i == 2)) (fun _ => true) ⟨2, 5⟩
    (by decide)

/-- Claim C2 (amended): the free-format parser fails open whenever two file
axes are assigned the same canonical index (the check at input_free.c
173-183), but the MGH parser performs no duplicate-role check at all: a
header whose dominant-direction inference assigns the same canonical axis
to two file axes is accepted, so the assignment need not be a bijection. -/
theorem C2_dup_check_free_only (hdr : FreeHeader) (vol : VolumeGeom)
    (g1 : ℤ → ℤ) (g2 : ℤ → ℚ) (a : Fin 3 → ℤ)
    (hax : free_axis_indices (fix_spatial_axes vol.spatialAxes) hdr.axis_letters
      = some a)
    (hdup : a 0 = a 1 ∨ a 0 = a 2 ∨ a 1 = a 2) :
    (initialize_free_format_input hdr vol g1 g2).status = Status.ERROR ∧
    (initialize_mgh_format_input mgh_dup_header).isSome = true ∧
    mgh_axis_assignment mgh_dup_header 0 = mgh_axis_assignment mgh_dup_header 1 := by
  refine ⟨?_, by decide, by decide⟩
  unfold initialize_free_format_input
  dsimp only
  by_cases hb : hdr.n_bytes_per_voxel = 1 ∨ hdr.n_bytes_per_voxel = 2
  · rw [if_pos hb, if_pos rfl, hax]
    dsimp only
    rw [if_pos hdup]
  · rw [if_neg hb, if_neg (by decide : ¬ (Status.ERROR = Status.OK))]

/-- Witness for C2_dup_check_free_only: the free-format header with axis
letters x, x, z on a default volume. -/
theorem C2_dup_witness :
    (initialize_free_format_input free_dup_header default_volume
      (fun _ => 0) (fun _ => 0)).status = Status.ERROR ∧
    (initialize_mgh_format_input mgh_dup_header).isSome = true ∧
    mgh_axis_assignment mgh_dup_header 0 = mgh_axis_assignment mgh_dup_header 1 :=
  C2_dup_check_free_only free_dup_header default_volume (fun _ => 0) (fun _ => 0)
    ![0, 0, 2] (by rfl) (Or.inl rfl)

/-- Claim C6 (amended): each file axis is assigned the canonical axis with
the strictly largest direction-cosine magnitude when one exists (Y only
when strictly above both X and Z, Z only when strictly above both), and
the assignment agrees with the priority-ordered argmax except in exactly
one situation: when the Y and Z magnitudes tie and exceed X, the code
falls back to X rather than breaking the tie toward Y. -/
theorem C6_dominant_axis_characterization (d : Fin 3 → ℚ) :
    mgh_dominant_axis d = spec_dominant_axis |d 0| |d 1| |d 2| ∨
      (|d 1| = |d 2| ∧ |d 0| < |d 1| ∧ mgh_dominant_axis d = SpatialAxis.X) := by
  unfold mgh_dominant_axis spec_dominant_axis
  dsimp only
  split_ifs <;>
    simp only [not_and_or, not_lt, not_le] at * <;>
    first
      | (left; trivial)
      | (exfalso; casesm* _ ∨ _, _ ∧ _; all_goals linarith)
      | (right; casesm* _ ∨ _, _ ∧ _;
         all_goals
           exact ⟨le_antisymm (by linarith) (by linarith), by linarith, trivial⟩)

/-- Claim C7: across successive decode_next_unit calls, fraction_done is
monotonically non-decreasing, and on any call on which has_more is false
(in particular the first such call) the reported fraction equals exactly
1, for the free-format driver and for the MGH driver. -/
theorem C7_fraction_monotone_and_final (n k : ℕ) (readOk : ℕ → Bool)
    (hn : 0 < n) :
    free_fraction_done n k ≤ free_fraction_done n (k + 1) ∧
    (free_has_more n (k + 1) = false → free_fraction_done n (k + 1) = 1) ∧
    mgh_fraction_done n readOk k ≤ mgh_fraction_done n readOk (k + 1) ∧
    (mgh_has_more n readOk (k + 1) = false →
      mgh_fraction_done n readOk (k + 1) = 1) := by
  have hnq : (0 : ℚ) < (n : ℚ) := by exact_mod_cast hn
  refine ⟨?_, ?_, ?_, ?_⟩
  · unfold free_fraction_done
    refine (div_le_div_iff_of_pos_right hnq).mpr ?_
    have : free_driver_cursor n k ≤ free_driver_cursor n (k + 1) := by
      show free_driver_cursor n k ≤
        (let c := free_driver_cursor n k; if c < n then c + 1 else c)
      dsimp only
      split <;> omega
    exact_mod_cast this
  · intro h
    have hc : free_driver_cursor n (k + 1) = n := by
      simpa [free_has_more] using h
    unfold free_fraction_done
    rw [hc]
    exact div_self hnq.ne'
  · unfold mgh_fraction_done
    refine (div_le_div_iff_of_pos_right hnq).mpr ?_
    have : mgh_driver_cursor n readOk k ≤ mgh_driver_cursor n readOk (k + 1) := by
      show mgh_driver_cursor n readOk k ≤
        (let c := mgh_driver_cursor n readOk k;
          if c < n ∧ readOk k then c + 1 else c)
      dsimp only
      split <;> omega
    exact_mod_cast this
  · intro h
    have hc : mgh_driver_cursor n readOk (k + 1) = n := by
      simpa [mgh_has_more] using h
    unfold mgh_fraction_done
    rw [hc]
    exact div_self hnq.ne'

/-- Witness for C7_fraction_monotone_and_final on a 2-slice session at its
first call. -/
theorem C7_fraction_witness :
    0 < 2 ∧
    (free_fraction_done 2 0 ≤ free_fraction_done 2 1 ∧
     (free_has_more 2 1 = false → free_fraction_done 2 1 = 1) ∧
     mgh_fraction_done 2 (fun _ => true) 0 ≤ mgh_fraction_done 2 (fun _ => true) 1 ∧
     (mgh_has_more 2 (fun _ => true) 1 = false →
       mgh_fraction_done 2 (fun _ => true) 1 = 1)) :=
  ⟨by decide, C7_fraction_monotone_and_final 2 0 (fun _ => true) (by decide)⟩

/-- Claim C4 (amended): when quantization is active with a nonzero scale,
each raw sample v maps to the truncation toward zero of
(v − translation) / scale — the C int cast, not round — clamped to
[0, 255] only in the free-format byte-source branch; for samples within
the observed range the unclamped truncation of the short-source branch
already lies in [0, 255] under exact arithmetic, and the MGH driver
stores the unrounded, unclamped quotient itself. -/
theorem C4_truncation_not_round (v t s : ℚ) (hs : 0 < s) (hl : t ≤ v)
    (hu : v ≤ t + 255 * s) :
    free_format_quantize_short v t s = some (c_trunc ((v - t) / s)) ∧
    free_format_quantize_byte v t s = some (c_trunc ((v - t) / s)) ∧
    0 ≤ c_trunc ((v - t) / s) ∧ c_trunc ((v - t) / s) ≤ 255 ∧
    mgh_quantize v t s = some ((v - t) / s) := by
  have hsne : s ≠ 0 := ne_of_gt hs
  have hq0 : 0 ≤ (v - t) / s := div_nonneg (by linarith) hs.le
  have hq255 : (v - t) / s ≤ 255 := by
    rw [div_le_iff₀ hs]; linarith
  have htr : c_trunc ((v - t) / s) = ⌊(v - t) / s⌋ := by
    unfold c_trunc; rw [if_neg (not_lt.mpr hq0)]
  have h0 : 0 ≤ c_trunc ((v - t) / s) := by
    rw [htr]; exact Int.floor_nonneg.mpr hq0
  have h255 : c_trunc ((v - t) / s) ≤ 255 := by
    rw [htr]
    calc ⌊(v - t) / s⌋ ≤ ⌊(255 : ℚ)⌋ := Int.floor_le_floor hq255
    _ = 255 := by norm_num
  refine ⟨?_, ?_, h0, h255, ?_⟩
  · unfold free_format_quantize_short c_div
    rw [if_neg hsne]
    rfl
  · unfold free_format_quantize_byte c_div
    rw [if_neg hsne]
    show some _ = some _
    dsimp only
    rw [if_neg (not_lt.mpr h0), if_neg (not_lt.mpr h255)]
  · unfold mgh_quantize c_div
    rw [if_neg hsne]

/-- Witness for C4_truncation_not_round at the C4 counterexample input
(v = 17, translation 0, scale 10). -/
theorem C4_truncation_witness :
    (0 : ℚ) < 10 ∧ (0 : ℚ) ≤ 17 ∧ (17 : ℚ) ≤ 0 + 255 * 10 ∧
    (free_format_quantize_short 17 0 10 = some (c_trunc ((17 - 0) / 10)) ∧
     free_format_quantize_byte 17 0 10 = some (c_trunc ((17 - 0) / 10)) ∧
     0 ≤ c_trunc ((17 - 0 : ℚ) / 10) ∧ c_trunc ((17 - 0 : ℚ) / 10) ≤ 255 ∧
     mgh_quantize 17 0 10 = some ((17 - 0) / 10)) :=
  ⟨by norm_num, by norm_num, by norm_num,
    C4_truncation_not_round 17 0 10 (by norm_num) (by norm_num) (by norm_num)⟩

/-- Claim C9 (amended): the first close of a live session releases the
slice buffer and — in monolithic mode — closes the volume file (per-slice
mode releases the filename tables instead), but close is not idempotent: a
second close of the already-closed session double-frees the slice buffer
(undefined behaviour, modelled as none), in both format variants. -/
theorem C9_close_not_idempotent (fn vf : Bool) :
    delete_free_format_input ⟨true, fn, true, false⟩ =
      some ⟨false, fn, false, false⟩ ∧
    delete_free_format_input ⟨false, fn, false, false⟩ = none ∧
    delete_free_format_input ⟨true, true, vf, true⟩ =
      some ⟨false, false, vf, true⟩ ∧
    delete_free_format_input ⟨false, false, vf, true⟩ = none ∧
    delete_mgh_format_input ⟨true, true⟩ = some ⟨false, false⟩ ∧
    delete_mgh_format_input ⟨false, false⟩ = none := by
  cases fn <;> cases vf <;> decide

end Minc
